import Mathlib

/-!
Shallow embedding of the SEO keyword-enrichment and scoring pipeline
(`src/seo.py`, `src/client.py`).

Numbers are modelled as exact rationals (`ℚ`); Python `round(x, n)` is
modelled as round-half-to-even at `n` decimal digits; Python dictionaries
with possibly-absent keys are modelled as structures with `Option` fields;
Python's `d.get(k) or 0` idiom is `orZero`; fallible code returns
`Except`/`Option` instead of raising.
-/

/-- Python's `x or 0` applied to an optional numeric value: `None` (and `0`
itself) become `0`. -/
def orZero (x : Option ℚ) : ℚ := x.getD 0

/-- Round-half-to-even to the nearest integer, as Python's builtin `round`. -/
def pyRound (q : ℚ) : ℤ :=
  if q - q.floor < 1/2 then q.floor
  else if q - q.floor > 1/2 then q.floor + 1
  else if q.floor % 2 = 0 then q.floor else q.floor + 1

/-- Python's builtin `min` on two numbers. -/
def pyMin (a b : ℚ) : ℚ := if a ≤ b then a else b

/-- Python's `round(q, ndigits)`. -/
def roundTo (ndigits : ℕ) (q : ℚ) : ℚ := (pyRound (q * 10 ^ ndigits) : ℚ) / 10 ^ ndigits

/-- A raw per-keyword record from the DataForSEO provider response
(`keyword_data` in `seo.py`); every key may be absent. -/
structure KeywordData where
  keyword : Option String
  search_volume : Option ℚ
  competition : Option String
  competition_index : Option ℚ
  cpc : Option ℚ
deriving DecidableEq, Repr

/-- An enriched keyword record, the dict built by `_format_keyword_analytics`. -/
structure EnrichedKeyword where
  keyword : String
  search_volume : ℚ
  competition : String
  competition_index : ℚ
  cpc : ℚ
  difficulty_score : ℕ
  opportunity_score : ℚ
  seo_insights : List String
deriving DecidableEq, Repr

/-- Embedding of `SEOAnalyzer._calculate_difficulty_score` (seo.py lines 209-238). -/
def _calculate_difficulty_score (keyword_data : KeywordData) : ℕ :=
  let competition_index := orZero keyword_data.competition_index
  let search_volume := orZero keyword_data.search_volume
  let base_difficulty : ℕ :=
    if competition_index ≥ 80 then 85
    else if competition_index ≥ 60 then 65
    else if competition_index ≥ 40 then 45
    else 25
  let base_difficulty :=
    if search_volume > 10000 then base_difficulty + 10
    else if search_volume > 1000 then base_difficulty + 5
    else base_difficulty
  min 100 base_difficulty

/-- Embedding of `SEOAnalyzer._calculate_opportunity_score` (seo.py lines 240-259). -/
def _calculate_opportunity_score (keyword_data : KeywordData) : ℚ :=
  let search_volume := orZero keyword_data.search_volume
  let competition_index := orZero keyword_data.competition_index
  let volume_score := pyMin 50 (search_volume / 200)
  let competition_score := 50 - competition_index / 2
  roundTo 1 (volume_score + competition_score)

/-- Embedding of `SEOAnalyzer._generate_seo_insights` (seo.py lines 261-301). -/
def _generate_seo_insights (keyword_data : KeywordData) : List String :=
  let search_volume := orZero keyword_data.search_volume
  let competition_index := orZero keyword_data.competition_index
  let cpc := orZero keyword_data.cpc
  let insights₁ : List String :=
    if search_volume > 5000 then ["High search volume - excellent traffic potential"]
    else if search_volume > 1000 then ["Good search volume - solid traffic opportunity"]
    else ["Low search volume - niche targeting opportunity"]
  let insights₂ : List String := insights₁ ++
    (if competition_index < 50 then ["Low competition - favorable ranking conditions"]
     else if competition_index < 80 then ["Medium competition - moderate SEO effort required"]
     else ["High competition - intensive SEO strategy needed"])
  insights₂ ++
    (if cpc > 5 then ["High commercial value - strong monetization potential"]
     else if cpc > 1 then ["Medium commercial value - decent revenue opportunity"]
     else ["Low commercial value - primarily informational intent"])

/-- Embedding of `SEOAnalyzer._format_keyword_analytics` (seo.py lines 188-207). -/
def _format_keyword_analytics (keyword_data : KeywordData) : EnrichedKeyword :=
  { keyword := keyword_data.keyword.getD "Unknown"
  , search_volume := orZero keyword_data.search_volume
  , competition := keyword_data.competition.getD "UNKNOWN"
  , competition_index := orZero keyword_data.competition_index
  , cpc := orZero keyword_data.cpc
  , difficulty_score := _calculate_difficulty_score keyword_data
  , opportunity_score := _calculate_opportunity_score keyword_data
  , seo_insights := _generate_seo_insights keyword_data }

/-- One entry of the provider response's `tasks` array; its `result` key may
be `null` (`none`) or a list of per-keyword records. -/
structure TaskEntry where
  result : Option (List KeywordData)
deriving DecidableEq, Repr

/-- The JSON body returned by the DataForSEO search-volume endpoint. -/
structure ProviderResponse where
  status_code : ℤ
  status_message : String
  tasks : List TaskEntry
deriving DecidableEq, Repr

/-- Embedding of `SEOAnalyzer.fetch_search_volume_data` (seo.py lines 144-186).
The network transport is abstracted as an `Except` value: `Except.error`
models the request raising, `Except.ok` a response body.  `hasClient` models
`self.dataforseo_client` being configured. -/
def fetch_search_volume_data (hasClient : Bool)
    (provider : Except String ProviderResponse) : Option ProviderResponse :=
  if hasClient = false then none
  else
    match provider with
    | Except.error _ => none
    | Except.ok response_json =>
      if response_json.status_code = 20000 then some response_json else none

/-- The structured record produced by the Insight Generator: the parsed AI
response dictionary.  The uppercase `Keywords` and lowercase `keywords` keys
are distinct fields, as in the Python dict. -/
structure AIAnalysis where
  Name : Option String
  Description : Option String
  Niche : Option String
  Keywords : Option (List String)
  keywords : Option (List String)
deriving DecidableEq, Repr

/-- The fallback record `_parse_ai_response` substitutes on a JSON decode
error (seo.py lines 414-420). -/
def fallback_analysis : AIAnalysis :=
  { Name := some "Unknown"
  , Description := some "Analysis parsing failed"
  , Niche := some "Unknown"
  , Keywords := some []
  , keywords := none }

/-- The whitespace characters stripped by Python's `str.strip()` (ASCII). -/
def isPyWs (c : Char) : Bool :=
  c = ' ' || c = '\t' || c = '\n' || c = '\r' || c = '\x0b' || c = '\x0c'

/-- Python's `s.strip()` on a string modelled as a list of characters. -/
def pyStrip (s : List Char) : List Char :=
  ((s.dropWhile isPyWs).reverse.dropWhile isPyWs).reverse

/-- Python's `s[:-n]`, for `0 ≤ n ≤ len(s)`. -/
def pyDropRight (n : ℕ) (s : List Char) : List Char := s.take (s.length - n)

/-- The leading fenced code-block delimiter stripped by `_parse_ai_response`. -/
def fenceJson : List Char := "```json".toList

/-- The trailing fenced code-block delimiter stripped by `_parse_ai_response`. -/
def fence3 : List Char := "```".toList

/-- The cleanup performed by `_parse_ai_response` before `json.loads`
(seo.py lines 402-408). -/
def clean_response (ai_response : List Char) : List Char :=
  let clean₁ := pyStrip ai_response
  let clean₂ := if fenceJson.isPrefixOf clean₁ then clean₁.drop 7 else clean₁
  let clean₃ := if fence3.isSuffixOf clean₂ then pyDropRight 3 clean₂ else clean₂
  pyStrip clean₃

/-- Embedding of `SEOAnalyzer._parse_ai_response` (seo.py lines 391-420).
`loads` is the uninterpreted `json.loads` call: `none` models a
`json.JSONDecodeError`, which the source catches and replaces with the
fallback record. -/
def _parse_ai_response (loads : List Char → Option AIAnalysis)
    (ai_response : List Char) : AIAnalysis :=
  (loads (clean_response ai_response)).getD fallback_analysis

/-- The keyword extraction at seo.py line 318:
`ai_analysis.get("Keywords", []) or ai_analysis.get("keywords", [])`. -/
def extract_keywords (ai_analysis : AIAnalysis) : List String :=
  let k := ai_analysis.Keywords.getD []
  if k.isEmpty then ai_analysis.keywords.getD [] else k

/-- The `summary_metrics` dict of `_create_enhanced_analysis`. -/
structure SummaryMetrics where
  total_monthly_searches : ℚ
  average_cpc : ℚ
  keywords_analyzed : ℕ
  high_opportunity_keywords : ℕ
deriving DecidableEq, Repr

/-- The result dictionary of the analysis pipeline.  Each Python return site
builds a dict with a subset of these keys; absent keys are `none`. -/
structure AnalysisResult where
  ai_analysis : Option AIAnalysis
  enhanced_keywords : Option (List EnrichedKeyword)
  recommendations : Option (List EnrichedKeyword)
  keywords : Option (List String)
  enhanced_analysis : Option Bool
  website_analysis : Option AIAnalysis
  enriched_keywords : Option (List EnrichedKeyword)
  top_recommendations : Option (List EnrichedKeyword)
  summary_metrics : Option SummaryMetrics
deriving DecidableEq, Repr

/-- A result dictionary with no keys set. -/
def emptyResult : AnalysisResult :=
  { ai_analysis := none, enhanced_keywords := none, recommendations := none
  , keywords := none, enhanced_analysis := none, website_analysis := none
  , enriched_keywords := none, top_recommendations := none
  , summary_metrics := none }

/-- The basic (unenhanced) result dict with keys `ai_analysis`, `keywords`
and `enhanced_analysis = False`, returned at seo.py lines 329 and 437. -/
def basicResult (ai_analysis : AIAnalysis) (keywords : List String) : AnalysisResult :=
  { emptyResult with
    ai_analysis := some ai_analysis
  , keywords := some keywords
  , enhanced_analysis := some false }

/-- The stable descending sort by opportunity score,
`enriched_keywords.sort(key=lambda x: x["opportunity_score"], reverse=True)`
(seo.py line 446); Python's sort is stable, also under `reverse=True`. -/
def sort_by_opportunity (enriched_keywords : List EnrichedKeyword) : List EnrichedKeyword :=
  enriched_keywords.mergeSort
    (fun a b => decide (b.opportunity_score ≤ a.opportunity_score))

/-- The summary-metric computation of `_create_enhanced_analysis`
(seo.py lines 451-464). -/
def summary_metrics_of (enriched_keywords : List EnrichedKeyword) : SummaryMetrics :=
  let total_searches := (enriched_keywords.map (fun kw => kw.search_volume)).sum
  let avg_cpc : ℚ :=
    if enriched_keywords.isEmpty then 0
    else (enriched_keywords.map (fun kw => kw.cpc)).sum / enriched_keywords.length
  { total_monthly_searches := total_searches
  , average_cpc := roundTo 2 avg_cpc
  , keywords_analyzed := enriched_keywords.length
  , high_opportunity_keywords :=
      (enriched_keywords.filter (fun k => decide (k.opportunity_score > 70))).length }

/-- Embedding of `SEOAnalyzer._create_enhanced_analysis` (seo.py lines
422-466).  `Except.error` models a Python exception escaping (the `tasks[0]`
index on an empty `tasks` array). -/
def _create_enhanced_analysis (hasClient : Bool)
    (provider : Except String ProviderResponse)
    (ai_analysis : AIAnalysis) (keywords : List String) :
    Except String AnalysisResult :=
  let search_volume_data := fetch_search_volume_data hasClient provider
  match search_volume_data with
  | none => Except.ok (basicResult ai_analysis keywords)
  | some svd =>
    match svd.tasks.head? with
    | none => Except.error "IndexError"
    | some task =>
      match task.result with
      | none => Except.ok (basicResult ai_analysis keywords)
      | some results =>
        if results.isEmpty then Except.ok (basicResult ai_analysis keywords)
        else
          let enriched_keywords :=
            sort_by_opportunity (results.map _format_keyword_analytics)
          Except.ok
            { emptyResult with
              website_analysis := some ai_analysis
            , enriched_keywords := some enriched_keywords
            , top_recommendations := some (enriched_keywords.take 5)
            , summary_metrics := some (summary_metrics_of enriched_keywords)
            , enhanced_analysis := some true }

/-- Embedding of `SEOAnalyzer.generate_comprehensive_analysis` (seo.py lines
303-333), starting from the already-parsed AI analysis.  The second
component counts the invocations of `fetch_search_volume_data` (the Volume
Enricher call). -/
def generate_comprehensive_analysis (hasClient : Bool)
    (provider : Except String ProviderResponse)
    (ai_analysis : AIAnalysis) : Except String AnalysisResult × ℕ :=
  let keywords := extract_keywords ai_analysis
  if keywords.isEmpty then
    (Except.ok
      { emptyResult with
        ai_analysis := some ai_analysis
      , enhanced_keywords := some []
      , recommendations := some [] }, 0)
  else if hasClient then
    (_create_enhanced_analysis hasClient provider ai_analysis keywords, 1)
  else
    (Except.ok (basicResult ai_analysis keywords), 0)

/-- The concrete input record of the spec's worked scenario. -/
def runningShoes : KeywordData :=
  { keyword := some "running shoes", search_volume := some 12000
  , competition := none, competition_index := some 70, cpc := some 3.5 }

/-- A concrete record used to exercise ranking ties (opportunity score 51). -/
def kwTieA : KeywordData :=
  { keyword := some "alpha", search_volume := some 200
  , competition := none, competition_index := some 0, cpc := some 1 }

/-- A second record with the same numeric fields as `kwTieA`, so the two
enriched records have equal opportunity scores. -/
def kwTieB : KeywordData :=
  { keyword := some "beta", search_volume := some 200
  , competition := none, competition_index := some 0, cpc := some 1 }

/-! ### Helper lemmas -/

lemma rat_floor_eq_int_floor (q : ℚ) : q.floor = ⌊q⌋ := rfl

lemma pyRound_intCast (n : ℤ) : pyRound ((n : ℚ)) = n := by
  have h : ((n:ℚ)).floor = n := by rw [rat_floor_eq_int_floor, Int.floor_intCast]
  simp [pyRound, h]

lemma roundTo_intCast (d : ℕ) (n : ℤ) : roundTo d ((n : ℚ)) = (n : ℚ) := by
  unfold roundTo
  have h10 : ((n:ℚ)) * 10 ^ d = (((n * 10 ^ d : ℤ) : ℚ)) := by push_cast; ring
  rw [h10, pyRound_intCast]
  push_cast
  field_simp

lemma pyMin_eq_min (a b : ℚ) : pyMin a b = min a b := by
  simp [pyMin, min_def]

lemma tier_eq (x : ℚ) :
    (if 80 ≤ x then (85:ℕ) else if 60 ≤ x ∧ x < 80 then 65
     else if 40 ≤ x ∧ x < 60 then 45 else 25)
    = (if 80 ≤ x then 85 else if 60 ≤ x then 65 else if 40 ≤ x then 45 else 25) := by
  by_cases h80 : 80 ≤ x
  · simp [h80]
  · by_cases h60 : 60 ≤ x
    · simp [h80, h60, not_le.mp h80]
    · by_cases h40 : 40 ≤ x
      · simp [h80, h60, h40, not_le.mp h60]
      · simp [h80, h60, h40]

lemma adj_eq (x : ℚ) :
    (if 10000 < x then (10:ℕ) else if 1000 < x ∧ x ≤ 10000 then 5 else 0)
    = (if 10000 < x then 10 else if 1000 < x then 5 else 0) := by
  by_cases h1 : 10000 < x
  · simp [h1]
  · by_cases h2 : 1000 < x
    · simp [h1, h2, not_lt.mp h1]
    · simp [h1, h2]

lemma add_adj (b : ℕ) (c₁ c₂ : Prop) [Decidable c₁] [Decidable c₂] :
    (if c₁ then b + 10 else if c₂ then b + 5 else b)
    = b + (if c₁ then 10 else if c₂ then 5 else 0) := by
  split_ifs <;> omega

lemma opp_trans : ∀ (a b c : EnrichedKeyword),
    decide (b.opportunity_score ≤ a.opportunity_score) →
    decide (c.opportunity_score ≤ b.opportunity_score) →
    decide (c.opportunity_score ≤ a.opportunity_score) := by
  intro a b c hab hbc
  simp only [decide_eq_true_eq] at *
  exact le_trans hbc hab

lemma opp_total : ∀ (a b : EnrichedKeyword),
    decide (b.opportunity_score ≤ a.opportunity_score) ||
    decide (a.opportunity_score ≤ b.opportunity_score) := by
  intro a b
  simp only [Bool.or_eq_true, decide_eq_true_eq]
  exact le_total _ _

lemma take_five_min (l : List EnrichedKeyword) : l.take 5 = l.take (min 5 l.length) := by
  rcases le_total 5 l.length with h | h
  · rw [min_eq_left h]
  · rw [min_eq_right h, List.take_of_length_le h, List.take_of_length_le (le_refl _)]

lemma pyStrip_fenced (s : List Char) :
    pyStrip (fenceJson ++ (s ++ fence3)) = fenceJson ++ (s ++ fence3) := by
  have hA : List.dropWhile isPyWs fenceJson = fenceJson := by decide
  have hAe : fenceJson.isEmpty = false := by decide
  have hB : List.dropWhile isPyWs fence3.reverse = fence3.reverse := by decide
  have hBe : (fence3.reverse).isEmpty = false := by decide
  unfold pyStrip
  rw [List.dropWhile_append, hA]
  simp only [hAe, Bool.false_eq_true, if_false]
  rw [show (fenceJson ++ (s ++ fence3)).reverse
      = fence3.reverse ++ (s.reverse ++ fenceJson.reverse) by
    simp [List.reverse_append]]
  rw [List.dropWhile_append, hB]
  simp only [hBe, Bool.false_eq_true, if_false]
  simp [List.reverse_append]

lemma clean_response_fenced (s : List Char)
    (hs : pyStrip s = s)
    (hp : fenceJson.isPrefixOf s = false)
    (hq : fence3.isSuffixOf s = false) :
    clean_response (fenceJson ++ (s ++ fence3)) = clean_response s := by
  have h7 : fenceJson.length = 7 := by decide
  have h3 : fence3.length = 3 := by decide
  have hpre : fenceJson.isPrefixOf (fenceJson ++ (s ++ fence3)) = true := by
    simp [ List.isPrefixOf_iff_prefix]
  have hsuf : fence3.isSuffixOf (s ++ fence3) = true := by
    simp [List.isSuffixOf_iff_suffix]
  have hdrop : (fenceJson ++ (s ++ fence3)).drop 7 = s ++ fence3 := by
    rw [← h7, List.drop_left]
  have hdr : pyDropRight 3 (s ++ fence3) = s := by
    unfold pyDropRight
    rw [List.length_append, h3]
    simp [List.take_left]
  simp [clean_response, pyStrip_fenced, hpre, hsuf, hdrop, hdr, hs, hp, hq]

/-! ### The claims -/

/-- C1: for every keyword record, `difficulty_score` equals
`min(100, base + adjustment)` where the base tier is 85 / 65 / 45 / 25 by
competition index and the volume adjustment is +10 / +5 / +0. -/
theorem claim1_difficulty_score_formula (kd : KeywordData) :
    _calculate_difficulty_score kd =
      min 100
        ((if 80 ≤ orZero kd.competition_index then 85
          else if 60 ≤ orZero kd.competition_index ∧ orZero kd.competition_index < 80 then 65
          else if 40 ≤ orZero kd.competition_index ∧ orZero kd.competition_index < 60 then 45
          else 25) +
         (if 10000 < orZero kd.search_volume then 10
          else if 1000 < orZero kd.search_volume ∧ orZero kd.search_volume ≤ 10000 then 5
          else 0)) := by
  simp only [_calculate_difficulty_score]
  rw [tier_eq, adj_eq, add_adj]

/-- C2: for every keyword record, `opportunity_score` equals
`round(min(50, search_volume/200) + (50 - competition_index/2), 1)`; the
competition component is not clamped below 0, and a record with
`competition_index > 100` can yield a negative result. -/
theorem claim2_opportunity_score_formula_unclamped :
    (∀ kd : KeywordData, _calculate_opportunity_score kd =
      roundTo 1 (min 50 (orZero kd.search_volume / 200) +
        (50 - orZero kd.competition_index / 2)))
    ∧ (∃ kd : KeywordData, 100 < orZero kd.competition_index ∧
        _calculate_opportunity_score kd < 0) := by
  constructor
  · intro kd
    simp only [_calculate_opportunity_score]
    rw [pyMin_eq_min]
  · refine ⟨⟨none, some 0, none, some 300, none⟩, by norm_num [orZero], ?_⟩
    have hm : roundTo 1 (-100 : ℚ) = -100 := by
      have := roundTo_intCast 1 (-100 : ℤ)
      norm_num at this
      exact this
    norm_num [_calculate_opportunity_score, orZero, pyMin, hm]

/-- C3: for every keyword record, `seo_insights` is exactly the 3-element
sequence [traffic insight, competition insight, commercial-value insight]
with tier thresholds `> 5000` / `> 1000`, `< 50` / `< 80`, `> 5` / `> 1`. -/
theorem claim3_seo_insights_tiers (kd : KeywordData) :
    _generate_seo_insights kd =
      [(if orZero kd.search_volume > 5000 then "High search volume - excellent traffic potential"
        else if orZero kd.search_volume > 1000 then "Good search volume - solid traffic opportunity"
        else "Low search volume - niche targeting opportunity"),
       (if orZero kd.competition_index < 50 then "Low competition - favorable ranking conditions"
        else if orZero kd.competition_index < 80 then "Medium competition - moderate SEO effort required"
        else "High competition - intensive SEO strategy needed"),
       (if orZero kd.cpc > 5 then "High commercial value - strong monetization potential"
        else if orZero kd.cpc > 1 then "Medium commercial value - decent revenue opportunity"
        else "Low commercial value - primarily informational intent")]
    ∧ (_generate_seo_insights kd).length = 3 := by
  refine ⟨?_, ?_⟩ <;> (simp only [_generate_seo_insights]; split_ifs <;> rfl)

/-- C4 counterexample: on the running-shoes record the code's first insight
is the high-volume one (search_volume = 12000 > 5000), so the claimed triple
of insights (starting with the good-volume insight) is wrong. -/
theorem claim4_running_shoes_counterexample :
    ¬ ((_format_keyword_analytics runningShoes).difficulty_score = 75 ∧
       (_format_keyword_analytics runningShoes).opportunity_score = 65 ∧
       (_format_keyword_analytics runningShoes).seo_insights =
         ["Good search volume - solid traffic opportunity",
          "Medium competition - moderate SEO effort required",
          "Medium commercial value - decent revenue opportunity"]) := by
  intro h
  have hi := h.2.2
  have : (_format_keyword_analytics runningShoes).seo_insights =
      ["High search volume - excellent traffic potential",
       "Medium competition - moderate SEO effort required",
       "Medium commercial value - decent revenue opportunity"] := by
    norm_num [_format_keyword_analytics, _generate_seo_insights, orZero, runningShoes]
  rw [this] at hi
  simp at hi

/-- C4 amended: on the running-shoes record, `difficulty_score = 75`,
`opportunity_score = 65.0`, and the insights are the high-volume,
medium-competition and medium-commercial-value strings, in that order. -/
theorem claim4_running_shoes_scores :
    (_format_keyword_analytics runningShoes).difficulty_score = 75 ∧
    (_format_keyword_analytics runningShoes).opportunity_score = 65 ∧
    (_format_keyword_analytics runningShoes).seo_insights =
      ["High search volume - excellent traffic potential",
       "Medium competition - moderate SEO effort required",
       "Medium commercial value - decent revenue opportunity"] := by
  have h65 : roundTo 1 (65 : ℚ) = 65 := by
    have := roundTo_intCast 1 (65 : ℤ)
    norm_num at this
    exact this
  refine ⟨by decide, ?_, ?_⟩
  · norm_num [_format_keyword_analytics, _calculate_opportunity_score, orZero, pyMin,
      runningShoes, h65]
  · norm_num [_format_keyword_analytics, _generate_seo_insights, orZero, runningShoes]

/-- C5: the enriched list is the per-record formatting of the provider
results, stably sorted by opportunity score descending (equal scores keep
their provider-response order), and `top_recommendations` is the first
`min(5, length)` elements of the sorted list. -/
theorem claim5_ranking_sorted_stable_top5 (results : List KeywordData) :
    (sort_by_opportunity (results.map _format_keyword_analytics)).Perm
      (results.map _format_keyword_analytics)
    ∧ (sort_by_opportunity (results.map _format_keyword_analytics)).Pairwise
        (fun a b => b.opportunity_score ≤ a.opportunity_score)
    ∧ (∀ a b : EnrichedKeyword, a.opportunity_score = b.opportunity_score →
        List.Sublist [a, b] (results.map _format_keyword_analytics) →
        List.Sublist [a, b] (sort_by_opportunity (results.map _format_keyword_analytics)))
    ∧ (results ≠ [] → ∀ (msg : String) (ai : AIAnalysis) (keywords : List String),
        _create_enhanced_analysis true
            (Except.ok ⟨20000, msg, [⟨some results⟩]⟩) ai keywords =
          Except.ok
            { emptyResult with
              website_analysis := some ai
            , enriched_keywords :=
                some (sort_by_opportunity (results.map _format_keyword_analytics))
            , top_recommendations :=
                some ((sort_by_opportunity (results.map _format_keyword_analytics)).take
                  (min 5 (sort_by_opportunity (results.map _format_keyword_analytics)).length))
            , summary_metrics :=
                some (summary_metrics_of
                  (sort_by_opportunity (results.map _format_keyword_analytics)))
            , enhanced_analysis := some true }) := by
  refine ⟨?_, ?_, ?_, ?_⟩
  · exact List.mergeSort_perm _ _
  · exact (List.sorted_mergeSort opp_trans opp_total _).imp (fun h => of_decide_eq_true h)
  · intro a b hab hsub
    exact List.pair_sublist_mergeSort opp_trans opp_total (by simp [hab]) hsub
  · intro hne msg ai keywords
    have hemp : results.isEmpty = false := by
      simpa [List.isEmpty_iff] using hne
    simp [_create_enhanced_analysis, fetch_search_volume_data, hemp, ← take_five_min]

/-- C5 witness: on two concrete records with equal opportunity scores, the
tie keeps its input order in the sorted list, and the enhanced analysis of a
concrete provider response carries the sorted list and its `min(5, length)`
prefix. -/
theorem claim5_witness :
    List.Sublist [_format_keyword_analytics kwTieA, _format_keyword_analytics kwTieB]
      (sort_by_opportunity ([kwTieA, kwTieB].map _format_keyword_analytics))
    ∧ _create_enhanced_analysis true
        (Except.ok ⟨20000, "ok", [⟨some [kwTieA, kwTieB]⟩]⟩) fallback_analysis [] =
      Except.ok
        { emptyResult with
          website_analysis := some fallback_analysis
        , enriched_keywords :=
            some (sort_by_opportunity ([kwTieA, kwTieB].map _format_keyword_analytics))
        , top_recommendations :=
            some ((sort_by_opportunity ([kwTieA, kwTieB].map _format_keyword_analytics)).take
              (min 5 (sort_by_opportunity ([kwTieA, kwTieB].map _format_keyword_analytics)).length))
        , summary_metrics :=
            some (summary_metrics_of
              (sort_by_opportunity ([kwTieA, kwTieB].map _format_keyword_analytics)))
        , enhanced_analysis := some true } :=
  ⟨(claim5_ranking_sorted_stable_top5 [kwTieA, kwTieB]).2.2.1
      (_format_keyword_analytics kwTieA) (_format_keyword_analytics kwTieB)
      rfl (by simp [List.map]),
   (claim5_ranking_sorted_stable_top5 [kwTieA, kwTieB]).2.2.2
      (by simp) "ok" fallback_analysis []⟩

/-- C6: the summary metrics are the sum of search volumes, the mean cpc
rounded to two decimals (0 on the empty list, without error), the list
length, and the count of records with opportunity score strictly above 70. -/
theorem claim6_summary_metrics (l : List EnrichedKeyword) :
    (summary_metrics_of l).total_monthly_searches = (l.map (fun k => k.search_volume)).sum
    ∧ (summary_metrics_of l).average_cpc =
        (if l.isEmpty then 0 else roundTo 2 ((l.map (fun k => k.cpc)).sum / l.length))
    ∧ (summary_metrics_of l).keywords_analyzed = l.length
    ∧ (summary_metrics_of l).high_opportunity_keywords =
        l.countP (fun k => decide (70 < k.opportunity_score)) := by
  have h0 : roundTo 2 (0:ℚ) = 0 := by
    have := roundTo_intCast 2 (0 : ℤ)
    norm_num at this
    exact this
  refine ⟨rfl, ?_, rfl, ?_⟩
  · by_cases h : l.isEmpty <;> simp [summary_metrics_of, h, h0]
  · simp [summary_metrics_of, List.countP_eq_length_filter]

/-- C7: when the AI analysis yields no keywords, the pipeline returns the
minimal result (empty enhanced keyword list, empty recommendations) and the
Volume Enricher fetch is invoked zero times. -/
theorem claim7_empty_keywords_short_circuit (hasClient : Bool)
    (provider : Except String ProviderResponse)
    (ai : AIAnalysis) (h : extract_keywords ai = []) :
    generate_comprehensive_analysis hasClient provider ai =
      (Except.ok
        { emptyResult with
          ai_analysis := some ai
        , enhanced_keywords := some []
        , recommendations := some [] }, 0) := by
  simp [generate_comprehensive_analysis, h]

/-- C7 witness: the short-circuit at a concrete keyword-free AI analysis. -/
theorem claim7_witness :
    generate_comprehensive_analysis true (Except.error "down")
        ⟨none, none, none, none, none⟩ =
      (Except.ok
        { emptyResult with
          ai_analysis := some ⟨none, none, none, none, none⟩
        , enhanced_keywords := some []
        , recommendations := some [] }, 0) :=
  claim7_empty_keywords_short_circuit true (Except.error "down")
    ⟨none, none, none, none, none⟩ (by decide)

/-- C8: on a provider response with status other than 20000, and on a
transport failure, the enricher returns `none` instead of raising; the
pipeline then returns, without an escaping exception, the basic result whose
`enhanced_analysis` flag is false. -/
theorem claim8_enrichment_unavailable :
    (∀ (hasClient : Bool) (e : String),
        fetch_search_volume_data hasClient (Except.error e) = none)
    ∧ (∀ (hasClient : Bool) (r : ProviderResponse), r.status_code ≠ 20000 →
        fetch_search_volume_data hasClient (Except.ok r) = none)
    ∧ (∀ (provider : Except String ProviderResponse) (ai : AIAnalysis),
        extract_keywords ai ≠ [] →
        fetch_search_volume_data true provider = none →
        generate_comprehensive_analysis true provider ai =
          (Except.ok (basicResult ai (extract_keywords ai)), 1) ∧
        (basicResult ai (extract_keywords ai)).enhanced_analysis = some false) := by
  refine ⟨?_, ?_, ?_⟩
  · intro hasClient e
    cases hasClient <;> simp [fetch_search_volume_data]
  · intro hasClient r h
    cases hasClient <;> simp [fetch_search_volume_data, h]
  · intro provider ai hne hf
    constructor
    · have hemp : (extract_keywords ai).isEmpty = false := by
        simpa [List.isEmpty_iff] using hne
      simp [generate_comprehensive_analysis, _create_enhanced_analysis, hemp, hf]
    · rfl

/-- C8 witness: unavailability on a concrete transport failure and a
concrete status-40000 response, and the resulting unenhanced pipeline
outcome. -/
theorem claim8_witness :
    fetch_search_volume_data true (Except.error "down") = none ∧
    fetch_search_volume_data true (Except.ok ⟨40000, "err", []⟩) = none ∧
    (generate_comprehensive_analysis true (Except.error "down")
        ⟨none, none, none, some ["shoes"], none⟩ =
      (Except.ok (basicResult ⟨none, none, none, some ["shoes"], none⟩
        (extract_keywords ⟨none, none, none, some ["shoes"], none⟩)), 1) ∧
    (basicResult ⟨none, none, none, some ["shoes"], none⟩
        (extract_keywords ⟨none, none, none, some ["shoes"], none⟩)).enhanced_analysis =
      some false) :=
  ⟨claim8_enrichment_unavailable.1 true "down",
   claim8_enrichment_unavailable.2.1 true ⟨40000, "err", []⟩ (by decide),
   claim8_enrichment_unavailable.2.2 (Except.error "down")
     ⟨none, none, none, some ["shoes"], none⟩
     (by decide) (claim8_enrichment_unavailable.1 true "down")⟩

/-- C9: when the cleaned AI response is not valid JSON the parser returns
the fallback record instead of raising, and a response wrapped in a
```json ... ``` fenced block parses the same as its unwrapped payload. -/
theorem claim9_parse_fallback_and_fence :
    (∀ (loads : List Char → Option AIAnalysis) (ai_response : List Char),
        loads (clean_response ai_response) = none →
        _parse_ai_response loads ai_response = fallback_analysis)
    ∧ (∀ (loads : List Char → Option AIAnalysis) (s : List Char),
        pyStrip s = s →
        fenceJson.isPrefixOf s = false →
        fence3.isSuffixOf s = false →
        _parse_ai_response loads (fenceJson ++ (s ++ fence3)) =
          _parse_ai_response loads s) := by
  constructor
  · intro loads ai_response h
    simp [_parse_ai_response, h]
  · intro loads s hs hp hq
    simp [_parse_ai_response, clean_response_fenced s hs hp hq]

/-- C9 witness: a concrete non-JSON response falls back, and its fenced
wrapping parses identically. -/
theorem claim9_witness :
    _parse_ai_response (fun _ => none) ("bad".toList) = fallback_analysis ∧
    _parse_ai_response (fun _ => none) (fenceJson ++ ("bad".toList ++ fence3)) =
      _parse_ai_response (fun _ => none) ("bad".toList) :=
  ⟨claim9_parse_fallback_and_fence.1 (fun _ => none) ("bad".toList) rfl,
   claim9_parse_fallback_and_fence.2 (fun _ => none) ("bad".toList)
     (by decide) (by decide) (by decide)⟩

/-- C10: for competition_index in [0,100] and non-negative search volume,
the difficulty score lies in [25, 95] and equals the unclamped sum of base
tier and volume adjustment: the clamp to 100 never takes effect. -/
theorem claim10_difficulty_range (kd : KeywordData)
    (h₀ : 0 ≤ orZero kd.competition_index)
    (h₁ : orZero kd.competition_index ≤ 100)
    (h₂ : 0 ≤ orZero kd.search_volume) :
    25 ≤ _calculate_difficulty_score kd ∧ _calculate_difficulty_score kd ≤ 95 ∧
    _calculate_difficulty_score kd =
      (if orZero kd.competition_index ≥ 80 then 85
       else if orZero kd.competition_index ≥ 60 then 65
       else if orZero kd.competition_index ≥ 40 then 45 else 25) +
      (if orZero kd.search_volume > 10000 then 10
       else if orZero kd.search_volume > 1000 then 5 else 0) := by
  simp only [_calculate_difficulty_score]
  split_ifs <;> refine ⟨by norm_num, by norm_num, by norm_num⟩

/-- C10 witness: the bounds hold at a concrete in-range record. -/
theorem claim10_witness :
    25 ≤ _calculate_difficulty_score runningShoes ∧
    _calculate_difficulty_score runningShoes ≤ 95 ∧
    _calculate_difficulty_score runningShoes =
      (if orZero runningShoes.competition_index ≥ 80 then 85
       else if orZero runningShoes.competition_index ≥ 60 then 65
       else if orZero runningShoes.competition_index ≥ 40 then 45 else 25) +
      (if orZero runningShoes.search_volume > 10000 then 10
       else if orZero runningShoes.search_volume > 1000 then 5 else 0) :=
  claim10_difficulty_range runningShoes (by norm_num [orZero, runningShoes])
    (by norm_num [orZero, runningShoes]) (by norm_num [orZero, runningShoes])
